import Mathlib

/-!
Verification development for the HealthLens AI document-analysis core
(`services/geminiService.ts`, provided as `src/unnamed/part_000`, together with
the data model of `src/types.ts`).

The service layer is shallowly embedded: browser / SDK effects (file reading,
the remote generateContent call, the chat handle) are passed in as explicit
values or response functions, and every function of the service file becomes a
pure Lean definition.  JavaScript strings are modelled as Lean `String`
(sequences of Unicode scalar values; the UTF-16 surrogate representation and
full-Unicode case mapping are abstracted, which is faithful for all ASCII data
handled here).  `JSON.parse` is modelled by an executable JSON parser producing
a `Json` value; JavaScript numbers are kept in exact decimal form
(mantissa × 10^exponent), abstracting IEEE-754 rounding, which no compared
value depends on.
-/

/-! ### Character and string helpers (JS string operations) -/

/-- The `\x7b` character, written via its code point. -/
def lbrace : Char := Char.ofNat 123

/-- The `\x7d` character, written via its code point. -/
def rbrace : Char := Char.ofNat 125

/-- Whitespace accepted by `String.prototype.trim` (restricted to the ASCII
whitespace actually produced by the remote service). -/
def isTrimWs (c : Char) : Bool :=
  c = ' ' || c = '\t' || c = '\n' || c = '\r'

def dropLeadWs : List Char → List Char
  | [] => []
  | c :: r => if isTrimWs c then dropLeadWs r else c :: r

/-- JS `s.trim()`. -/
def jsTrim (s : String) : String :=
  String.mk ((dropLeadWs (dropLeadWs s.toList.reverse).reverse))

/-- Does `p` occur as a prefix of `l`? -/
def listStarts : List Char → List Char → Bool
  | [], _ => true
  | _ :: _, [] => false
  | a :: as, b :: bs => a = b && listStarts as bs

/-- Does `n` occur as a contiguous sublist of `h`?  (JS `String.prototype.includes`.) -/
def hasSub (n : List Char) : List Char → Bool
  | [] => n.isEmpty
  | c :: rest => listStarts n (c :: rest) || hasSub n rest

/-- JS `hay.includes(needle)`. -/
def strIncludes (hay needle : String) : Bool :=
  hasSub needle.toList hay.toList

/-- JS `s.startsWith(p)`. -/
def strStarts (s p : String) : Bool :=
  listStarts p.toList s.toList

/-- JS `s.endsWith(p)`. -/
def strEnds (s p : String) : Bool :=
  listStarts p.toList.reverse s.toList.reverse

/-- ASCII lower-casing of one character (JS `toLowerCase` restricted to ASCII). -/
def lowerCh (c : Char) : Char :=
  if 'A' ≤ c ∧ c ≤ 'Z' then Char.ofNat (c.toNat + 32) else c

/-- JS `s.toLowerCase()` (ASCII fragment). -/
def jsToLower (s : String) : String :=
  String.mk (s.toList.map lowerCh)

def firstIdxAux (c : Char) : List Char → Nat → Option Nat
  | [], _ => none
  | a :: r, i => if a = c then some i else firstIdxAux c r (i + 1)

/-- JS `s.indexOf(c)`, as an `Option` instead of `-1`. -/
def firstIdxOf (s : String) (c : Char) : Option Nat :=
  firstIdxAux c s.toList 0

/-- JS `s.lastIndexOf(c)`, as an `Option` instead of `-1`. -/
def lastIdxOf (s : String) (c : Char) : Option Nat :=
  (firstIdxAux c s.toList.reverse 0).map (fun i => s.toList.length - 1 - i)

/-- JS `s.substring(a, b)`: swaps the endpoints when `a > b` and clamps to the
string length. -/
def jsSubstring (s : String) (a b : Nat) : String :=
  let lo := min a b
  let hi := max a b
  String.mk ((s.toList.drop lo).take (hi - lo))

/-- Drop the first `n` characters. -/
def strDrop (s : String) (n : Nat) : String :=
  String.mk (s.toList.drop n)

/-- Drop the last `n` characters. -/
def strDropRight (s : String) (n : Nat) : String :=
  String.mk (s.toList.take (s.toList.length - n))

/-! ### JSON values and `JSON.parse`

`src/unnamed/part_000` line 127 runs `JSON.parse` on the extracted slice and
performs no further validation.  The parser below follows the JSON grammar as
implemented by `JSON.parse`: optional whitespace between tokens, objects with
string keys (a duplicated key keeps its first position and its last value,
matching JS property creation/assignment), arrays, strings with the standard
escapes (unpaired UTF-16 surrogates are abstracted to U+FFFD), exact decimal
numbers, and the three literals. -/

inductive Json where
  | null
  | bool (b : Bool)
  | num (mantissa : Int) (exp10 : Int)
  | str (s : String)
  | arr (elems : List Json)
  | obj (fields : List (String × Json))

/-- JS property write `o[k] = v` on a plain object: an existing key keeps its
position and gets the new value, a new key is appended. -/
def setField : List (String × Json) → String → Json → List (String × Json)
  | [], k, v => [(k, v)]
  | (k', v') :: rest, k, v =>
    if k' = k then (k', v) :: rest else (k', v') :: setField rest k v

/-- JS property read `o[k]` on a plain object. -/
def lookupField : List (String × Json) → String → Option Json
  | [], _ => none
  | (k', v') :: rest, k => if k' = k then some v' else lookupField rest k

/-- Property read on a `Json` value (`undefined` for non-objects). -/
def Json.getField : Json → String → Option Json
  | .obj fs, k => lookupField fs k
  | _, _ => none

/-- JSON insignificant whitespace. -/
def isJsonWs (c : Char) : Bool :=
  c = ' ' || c = '\t' || c = '\n' || c = '\r'

def skipWs : List Char → List Char
  | [] => []
  | c :: r => if isJsonWs c then skipWs r else c :: r

def hexVal (c : Char) : Option Nat :=
  if '0' ≤ c ∧ c ≤ '9' then some (c.toNat - 48)
  else if 'a' ≤ c ∧ c ≤ 'f' then some (c.toNat - 87)
  else if 'A' ≤ c ∧ c ≤ 'F' then some (c.toNat - 55)
  else none

def take4Hex : List Char → Option (Nat × List Char)
  | a :: b :: c :: d :: rest =>
    match hexVal a, hexVal b, hexVal c, hexVal d with
    | some x, some y, some z, some w => some (((x * 16 + y) * 16 + z) * 16 + w, rest)
    | _, _, _, _ => none
  | _ => none

def escChar (e : Char) : Option Char :=
  if e = '"' then some '"'
  else if e = '\\' then some '\\'
  else if e = '/' then some '/'
  else if e = 'b' then some (Char.ofNat 8)
  else if e = 'f' then some (Char.ofNat 12)
  else if e = 'n' then some (Char.ofNat 10)
  else if e = 'r' then some (Char.ofNat 13)
  else if e = 't' then some (Char.ofNat 9)
  else none

def replacementChar : Char := Char.ofNat 0xFFFD

/-- Body of a JSON string after the opening quote: returns the decoded
characters and the input remaining after the closing quote.  The fuel is at
least the input length plus one, and each step consumes input. -/
def parseStrChars (fuel : Nat) (cs : List Char) : Option (List Char × List Char) :=
  match fuel with
  | 0 => none
  | fuel + 1 =>
    match cs with
    | [] => none
    | c :: rest =>
      if c = '"' then some ([], rest)
      else if c = '\\' then
        match rest with
        | [] => none
        | e :: rest2 =>
          if e = 'u' then
            match take4Hex rest2 with
            | none => none
            | some (n, rest3) =>
              if 0xD800 ≤ n ∧ n < 0xDC00 then
                match rest3 with
                | '\\' :: 'u' :: r4 =>
                  match take4Hex r4 with
                  | some (m, rest5) =>
                    if 0xDC00 ≤ m ∧ m < 0xE000 then
                      (parseStrChars fuel rest5).map
                        (fun p => (Char.ofNat (0x10000 + (n - 0xD800) * 0x400 + (m - 0xDC00)) :: p.1, p.2))
                    else
                      (parseStrChars fuel rest3).map (fun p => (replacementChar :: p.1, p.2))
                  | none => (parseStrChars fuel rest3).map (fun p => (replacementChar :: p.1, p.2))
                | _ => (parseStrChars fuel rest3).map (fun p => (replacementChar :: p.1, p.2))
              else if 0xDC00 ≤ n ∧ n < 0xE000 then
                (parseStrChars fuel rest3).map (fun p => (replacementChar :: p.1, p.2))
              else
                (parseStrChars fuel rest3).map (fun p => (Char.ofNat n :: p.1, p.2))
          else
            match escChar e with
            | some ch => (parseStrChars fuel rest2).map (fun p => (ch :: p.1, p.2))
            | none => none
      else if c.toNat < 0x20 then none
      else (parseStrChars fuel rest).map (fun p => (c :: p.1, p.2))

def isDigitCh (c : Char) : Bool := '0' ≤ c && c ≤ '9'

def digitsVal (ds : List Char) : Nat :=
  ds.foldl (fun a c => a * 10 + (c.toNat - 48)) 0

def spanDigits : List Char → (List Char × List Char)
  | [] => ([], [])
  | c :: r =>
    if isDigitCh c then
      let p := spanDigits r
      (c :: p.1, p.2)
    else ([], c :: r)

def parseExpPart (cs : List Char) : Option (Int × List Char) :=
  let p : Int × List Char :=
    match cs with
    | '+' :: r => (1, r)
    | '-' :: r => (-1, r)
    | _ => (1, cs)
  let q := spanDigits p.2
  if q.1.isEmpty then none else some (p.1 * (digitsVal q.1 : Int), q.2)

/-- A JSON number token starting at `cs` (grammar `-? int frac? exp?`). -/
def parseNumber (cs : List Char) : Option (Json × List Char) :=
  let sp : Bool × List Char :=
    match cs with
    | '-' :: r => (true, r)
    | _ => (false, cs)
  match sp.2 with
  | [] => none
  | c :: r =>
    if !isDigitCh c then none
    else
      let ip : List Char × List Char :=
        if c = '0' then ([c], r) else spanDigits (c :: r)
      let fracRes : Option (List Char × List Char) :=
        match ip.2 with
        | '.' :: r2 =>
          let fd := spanDigits r2
          if fd.1.isEmpty then none else some fd
        | _ => some ([], ip.2)
      match fracRes with
      | none => none
      | some (fracDs, rest2) =>
        let expRes : Option (Int × List Char) :=
          match rest2 with
          | 'e' :: r4 => parseExpPart r4
          | 'E' :: r4 => parseExpPart r4
          | _ => some (0, rest2)
        match expRes with
        | none => none
        | some (e, rest3) =>
          let mag : Nat := digitsVal (ip.1 ++ fracDs)
          let mant : Int := if sp.1 then -(mag : Int) else (mag : Int)
          some (.num mant (e - (fracDs.length : Int)), rest3)

/-- Work items of the JSON parser: a value, the items of an array after `[`,
or the members of an object after the opening brace. -/
inductive ParseTask where
  | val (cs : List Char)
  | arrItems (cs : List Char) (acc : List Json)
  | objItems (cs : List Char) (acc : List (String × Json))

/-- One recursive parsing engine, structurally recursive on fuel so that closed
calls reduce definitionally. -/
def parseStep : Nat → ParseTask → Option (Json × List Char)
  | 0, _ => none
  | Nat.succ fuel, .val cs0 =>
    let cs := skipWs cs0
    match cs with
    | 'n' :: 'u' :: 'l' :: 'l' :: r => some (.null, r)
    | 't' :: 'r' :: 'u' :: 'e' :: r => some (.bool true, r)
    | 'f' :: 'a' :: 'l' :: 's' :: 'e' :: r => some (.bool false, r)
    | '"' :: r => (parseStrChars (r.length + 1) r).map (fun p => (.str (String.mk p.1), p.2))
    | '[' :: r =>
      let r' := skipWs r
      match r' with
      | ']' :: r2 => some (.arr [], r2)
      | _ => parseStep fuel (.arrItems r' [])
    | c :: r =>
      if c = lbrace then
        let r' := skipWs r
        match r' with
        | [] => none
        | c2 :: r2 => if c2 = rbrace then some (.obj [], r2) else parseStep fuel (.objItems r' [])
      else parseNumber cs
    | [] => none
  | Nat.succ fuel, .arrItems cs acc =>
    match parseStep fuel (.val cs) with
    | none => none
    | some (v, r) =>
      let r' := skipWs r
      match r' with
      | ',' :: r2 => parseStep fuel (.arrItems r2 (acc ++ [v]))
      | ']' :: r2 => some (.arr (acc ++ [v]), r2)
      | _ => none
  | Nat.succ fuel, .objItems cs acc =>
    let cs' := skipWs cs
    match cs' with
    | '"' :: r =>
      match parseStrChars (r.length + 1) r with
      | none => none
      | some (kcs, r2) =>
        let r3 := skipWs r2
        match r3 with
        | ':' :: r4 =>
          match parseStep fuel (.val r4) with
          | none => none
          | some (v, r5) =>
            let r6 := skipWs r5
            match r6 with
            | ',' :: r7 => parseStep fuel (.objItems r7 (setField acc (String.mk kcs) v))
            | c :: r7 => if c = rbrace then some (.obj (setField acc (String.mk kcs) v), r7) else none
            | [] => none
        | _ => none
    | _ => none

/-- `JSON.parse`: one JSON value surrounded only by whitespace; `none` models a
thrown `SyntaxError`. -/
def Json.parse (s : String) : Option Json :=
  let cs := s.toList
  match parseStep (2 * cs.length + 4) (.val cs) with
  | some (v, rest) => if (skipWs rest).isEmpty then some v else none
  | none => none


/-! ### Data model (`src/types.ts`) and request/response shapes -/

/-- One enum value per `UserRole` union member (`src/types.ts` line 16). -/
inductive UserRole where
  | student | clinician | researcher | other
deriving DecidableEq

def UserRole.text : UserRole → String
  | .student => "Student"
  | .clinician => "Clinician"
  | .researcher => "Researcher"
  | .other => "Other"

/-- One enum value per `FocusArea` union member (`src/types.ts` lines 18-23). -/
inductive FocusArea where
  | overall | methodsQuality | resultsGraphs | risksSafety | limitationsBias
deriving DecidableEq

def FocusArea.text : FocusArea → String
  | .overall => "Overall summary"
  | .methodsQuality => "Methods and design quality"
  | .resultsGraphs => "Results and graphs"
  | .risksSafety => "Risks and safety"
  | .limitationsBias => "Limitations and bias"

/-- `AnalysisMode` (`src/types.ts` line 25). -/
inductive AnalysisMode where
  | deep | quick
deriving DecidableEq

def AnalysisMode.text : AnalysisMode → String
  | .deep => "deep"
  | .quick => "quick"

/-- The `inlineData` payload produced by `fileToGenerativePart`
(`src/unnamed/part_000` lines 12-17). -/
structure InlineData where
  data : String
  mimeType : String
deriving DecidableEq

/-- A request `Part`: either an encoded file or a text block. -/
inductive ReqPart where
  | inline (d : InlineData)
  | text (s : String)
deriving DecidableEq

/-- The two rejection reasons `fileToGenerativePart` can produce
(`src/unnamed/part_000` lines 19 and 22); `e.message` is never empty, so the
`"Unknown error"` fallback of line 47 is unreachable. -/
inductive EncodeError where
  | readFailed | readerError
deriving DecidableEq

def EncodeError.text : EncodeError → String
  | .readFailed => "Failed to read file"
  | .readerError => "File reading error"

/-- One input file together with the outcome of its (external, asynchronous)
encoding: the browser read either yields an `inlineData` part or rejects with
one of the two `EncodeError` reasons. -/
structure FileInput where
  name : String
  outcome : Except EncodeError InlineData

/-- `GroundingChunk` (`src/types.ts` lines 27-32): `web.uri` / `web.title`. -/
structure WebRef where
  uri : String
  title : String
deriving DecidableEq

structure GroundingChunk where
  web : Option WebRef
deriving DecidableEq

/-- The parts of the remote response envelope read by the service: the `text`
accessor and `candidates[0].groundingMetadata.groundingChunks`.  `text := some ""`
and `text := none` both model a falsy `response.text`. -/
structure ResponseEnvelope where
  text : Option String
  groundingChunks : Option (List GroundingChunk)

/-- An error thrown by the remote SDK: optional numeric status (the merged
`error.status || error.response.status` of line 155) and message. -/
structure JsError where
  status : Option Nat
  message : String

/-- Truthiness of the credential string: `!process.env.API_KEY` is true when
the variable is unset or empty. -/
def keyMissing : Option String → Bool
  | none => true
  | some s => s = ""

/-! ### Constants

The service imports its model names and system instructions from
`../constants`, a module that is not part of `src/`; only their identities (not
their values) are observable in the embedded code, so they are modelled from
the spec as distinct opaque strings. -/

/-- Modelled from the spec: `constants.ts` is absent from `src/`; §4.2 calls
this the stronger model selected by deep mode. -/
def MODEL_ANALYSIS : String := "stronger-analysis-model"

/-- Modelled from the spec: `constants.ts` is absent from `src/`; §4.2 calls
this the lighter-weight model selected by quick mode. -/
def MODEL_FAST : String := "lighter-weight-fast-model"

/-- Modelled from the spec: constant chat model name from the missing
`constants.ts`. -/
def MODEL_CHAT : String := "chat-model"

/-- Modelled from the spec: the fixed analysis system instruction from the
missing `constants.ts`. -/
def SYSTEM_INSTRUCTION : String := "analysis-system-instruction"

/-- Modelled from the spec: §4.6's constant conversational-policy preamble from
the missing `constants.ts`. -/
def CHAT_SYSTEM_INSTRUCTION : String := "chat-system-instruction"

/-! ### Request composition (`src/unnamed/part_000` lines 68-109) -/

structure ThinkingConfig where
  thinkingBudget : Nat
deriving DecidableEq

inductive Tool where
  | googleSearch
deriving DecidableEq

/-- The mode-dependent `config` object of the `generateContent` call
(lines 100-109). -/
structure GenConfig where
  systemInstruction : String
  thinkingConfig : Option ThinkingConfig
  tools : Option (List Tool)
  responseMimeType : Option String
deriving DecidableEq

/-- The full `generateContent` request (lines 95-110). -/
structure GenRequest where
  model : String
  parts : List ReqPart
  config : GenConfig
deriving DecidableEq

/-- The prompt text of lines 68-86, including the mode-specific instruction
block and the trailing strict-JSON demand. -/
def buildPrompt (userInstructions : String) (userRole : UserRole)
    (focusArea : FocusArea) (mode : AnalysisMode) : String :=
  let base :=
    "Please analyze the attached medical documents.\n    CONTEXT:\n    User Role: "
      ++ userRole.text ++ "\n    Focus Area: " ++ focusArea.text
      ++ "\n    Analysis Mode: " ++ mode.text ++ "\n    "
  let base :=
    if jsTrim userInstructions = "" then base
    else base ++ "\nUSER NOTES: " ++ userInstructions
  let base := base ++
    (match mode with
     | .quick =>
       "\n\nINSTRUCTION: Perform a 'Quick Scan'. Prioritize the Plain Summary and Key Findings. Keep the Clinician Explanation and Methods sections concise and direct. Focus on extracting the most critical facts immediately."
     | .deep =>
       "\n\nINSTRUCTION: Perform a 'Deep Analysis'. Prioritize thoroughness. Provide detailed mechanistic explanations in the Clinician section. Evaluate risks and limitations critically. Ensure the Data Interpretation is comprehensive.")
  base ++ "\n\nReturn the strictly structured JSON as defined in system instructions. Do not include markdown formatting like ```json."

/-- Lines 91-109: model choice and the three mode-dependent config settings,
plus the parts array `[...successfulParts, promptPart]` of line 98. -/
def composeRequest (mode : AnalysisMode) (successfulParts : List ReqPart)
    (promptText : String) : GenRequest :=
  { model := match mode with | .quick => MODEL_FAST | .deep => MODEL_ANALYSIS
    parts := successfulParts ++ [.text promptText]
    config :=
      { systemInstruction := SYSTEM_INSTRUCTION
        thinkingConfig := match mode with | .deep => some { thinkingBudget := 8192 } | .quick => none
        tools := match mode with | .deep => some [.googleSearch] | .quick => none
        responseMimeType := match mode with | .quick => some "application/json" | .deep => none } }

/-! ### Error classifier (`src/unnamed/part_000` lines 150-173) -/

inductive FailureKind where
  | badRequest | rateLimited | contentRejected | serviceOverloaded | networkFailure | unknown
deriving DecidableEq

/-- Row condition of line 157: `status === 400 || msg.includes("invalid argument")`. -/
def rowBadRequest (status : Option Nat) (msg : String) : Bool :=
  decide (status = some 400) || strIncludes msg "invalid argument"

/-- Row condition of line 160: status 429 or a quota / rate-limit message. -/
def rowRateLimited (status : Option Nat) (msg : String) : Bool :=
  decide (status = some 429) || strIncludes msg "quota" || strIncludes msg "rate limit"

/-- Row condition of line 163: a safety / blocked message. -/
def rowContentRejected (msg : String) : Bool :=
  strIncludes msg "safety" || strIncludes msg "blocked"

/-- Row condition of line 166: status 503 or an overloaded message. -/
def rowServiceOverloaded (status : Option Nat) (msg : String) : Bool :=
  decide (status = some 503) || strIncludes msg "overloaded"

/-- Row condition of line 169: a fetch-failed / network message. -/
def rowNetworkFailure (msg : String) : Bool :=
  strIncludes msg "fetch failed" || strIncludes msg "network"

/-- The catch block of lines 150-173: lower-cases the message, tests the rows
in order, and rethrows a user-facing message; the final row passes a non-empty
message through verbatim. -/
def classify (status : Option Nat) (message : String) : FailureKind × String :=
  let msg := jsToLower message
  if rowBadRequest status msg then
    (.badRequest, "The request was rejected. This might be due to an unsupported file format or configuration error.")
  else if rowRateLimited status msg then
    (.rateLimited, "Rate limit exceeded. We are processing too many requests. Please wait a moment and try again.")
  else if rowContentRejected msg then
    (.contentRejected, "The content was flagged by safety settings and could not be analyzed. Please ensure uploaded files contain safe medical content.")
  else if rowServiceOverloaded status msg then
    (.serviceOverloaded, "The AI service is temporarily overloaded. Please try again shortly.")
  else if rowNetworkFailure msg then
    (.networkFailure, "Network error. Please check your internet connection.")
  else
    (.unknown, if message = "" then "An unexpected error occurred during analysis." else message)


/-! ### Response normalization (`src/unnamed/part_000` lines 112-148) -/

/-- Lines 121-124: the fallback taken when the braces are not both found —
strip a leading (possibly `json`-tagged) fence token and a trailing fence
token, each only if present, chaining the two leading replaces as the code
does. -/
def fenceFallback (cleanText : String) : String :=
  if strStarts cleanText "```" then
    let t1 := if strStarts cleanText "```json" then strDrop cleanText 7 else cleanText
    let t2 := if strStarts t1 "```" then strDrop t1 3 else t1
    if strEnds t2 "```" then strDropRight t2 3 else t2
  else cleanText

/-- Lines 113-124: trim, slice from the first opening to the last closing
brace when both exist, otherwise apply the fence fallback. -/
def extractJsonSlice (t : String) : String :=
  let cleanText := jsTrim t
  match firstIdxOf cleanText lbrace with
  | some f =>
    match lastIdxOf cleanText rbrace with
    | some l => jsSubstring cleanText f (l + 1)
    | none => fenceFallback cleanText
  | none => fenceFallback cleanText

/-- A strict-mode JS property assignment `j.k = v`: updates plain objects,
throws `TypeError` (`none`) on primitives and `null`.  On an array the
assignment creates a non-index expando property, which the `Json` view does not
represent; no analysed response takes that shape. -/
def Json.setProp : Json → String → Json → Option Json
  | .obj fs, k, v => some (.obj (setField fs k v))
  | .arr xs, _, _ => some (.arr xs)
  | _, _, _ => none

/-- Line 130's warning text for one failed file `(name, reason)`. -/
def warningMsg (p : String × String) : String :=
  "Unable to include " ++ p.1 ++ " in analysis: " ++ p.2

/-- Line 136-138: keep chunks with a truthy `web.uri` and `web.title`, map to
`\x7btitle, url\x7d` objects. -/
def groundingJson (chunks : List GroundingChunk) : Json :=
  .arr (chunks.filterMap (fun c =>
    match c.web with
    | some w =>
      if w.uri ≠ "" ∧ w.title ≠ "" then
        some (.obj [("title", .str w.title), ("url", .str w.uri)])
      else none
    | none => none))

/-- Message of the inner catch at line 144. -/
def malformedMsg : String :=
  "The analysis was generated but could not be formatted correctly. The model output was not valid JSON."

/-- Message of the empty-response throw at line 147. -/
def emptyRespMsg : String :=
  "No analysis generated. The model returned an empty response."

/-- Lines 112-145 for a truthy `response.text`: extract the slice, `JSON.parse`
it, overwrite `processing_warnings` when any file failed, and attach
`grounding_urls` when the envelope carries grounding chunks (a present-but-empty
chunk list is truthy and is attached as an empty array).  Any throw inside the
inner try — a parse `SyntaxError` or a `TypeError` from assigning onto a
primitive — yields the malformed-response message. -/
def normalizeText (t : String) (warnings : List String)
    (gc : Option (List GroundingChunk)) : Except String Json :=
  match Json.parse (extractJsonSlice t) with
  | none => .error malformedMsg
  | some data =>
    let afterWarnings : Option Json :=
      if warnings.isEmpty then some data
      else data.setProp "processing_warnings" (.arr (warnings.map .str))
    match afterWarnings with
    | none => .error malformedMsg
    | some d1 =>
      match gc with
      | none => .ok d1
      | some chunks =>
        match d1.setProp "grounding_urls" (groundingJson chunks) with
        | none => .error malformedMsg
        | some d2 => .ok d2

/-! ### The analysis entry point (`src/unnamed/part_000` lines 28-175) -/

/-- Line 53-55: the parts of the files that encoded successfully, in input
order. -/
def successfulPartsOf (files : List FileInput) : List ReqPart :=
  files.filterMap (fun f => (f.outcome.toOption).map .inline)

/-- Line 57-59: `(fileName, reason)` for the files that failed, in input
order. -/
def failedFilesOf (files : List FileInput) : List (String × String) :=
  files.filterMap (fun f =>
    match f.outcome with
    | .error e => some (f.name, e.text)
    | .ok _ => none)

/-- Lines 61-66: the message thrown when no file encoded successfully. -/
def noUsableMsg (failedFiles : List (String × String)) : String :=
  match failedFiles with
  | [] => "No valid files to analyze."
  | (n, r) :: _ => "Failed to process all files. " ++ n ++ ": " ++ r

/-- Result of one `analyzeMedicalDocuments` call: the single remote request
that was issued, if any, and either the returned record or the thrown
message. -/
structure AnalyzeTrace where
  request : Option GenRequest
  result : Except String Json

/-- `analyzeMedicalDocuments` (lines 28-175).  The per-file encode outcomes and
the remote behaviour are inputs; everything thrown inside the try block —
including the all-files-failed error and the normalizer's errors — passes
through the catch block's classifier before reaching the caller, while the
missing-credential throw of line 36 happens before the try. -/
def analyzeMedicalDocuments (apiKey : Option String) (files : List FileInput)
    (userInstructions : String) (userRole : UserRole) (focusArea : FocusArea)
    (mode : AnalysisMode)
    (respond : GenRequest → Except JsError ResponseEnvelope) : AnalyzeTrace :=
  if keyMissing apiKey then
    { request := none
      result := .error "API Key is missing. Please check your environment configuration." }
  else
    let successfulParts := successfulPartsOf files
    let failedFiles := failedFilesOf files
    if successfulParts.isEmpty then
      { request := none
        result := .error (classify none (noUsableMsg failedFiles)).2 }
    else
      let req := composeRequest mode successfulParts
        (buildPrompt userInstructions userRole focusArea mode)
      match respond req with
      | .error e => { request := some req, result := .error (classify e.status e.message).2 }
      | .ok env =>
        match env.text with
        | none => { request := some req, result := .error (classify none emptyRespMsg).2 }
        | some t =>
          if t = "" then
            { request := some req, result := .error (classify none emptyRespMsg).2 }
          else
            match normalizeText t (failedFiles.map warningMsg) env.groundingChunks with
            | .ok j => { request := some req, result := .ok j }
            | .error m => { request := some req, result := .error (classify none m).2 }

/-! ### Chat session (`src/unnamed/part_000` lines 312-331) -/

/-- The conversational handle created by `ai.chats.create` (lines 318-323). -/
structure ChatHandle where
  model : String
  systemInstruction : String
deriving DecidableEq

/-- `initChatSession` (lines 314-324), acting on the module-level
`chatSession` variable passed as explicit state.  With a falsy credential it
returns without touching the state (`return;` at line 315) — and without
throwing, which the always-`ok` error channel records. -/
def initChatSession (apiKey : Option String) (context : String)
    (chatSession : Option ChatHandle) : Except String (Option ChatHandle) :=
  if keyMissing apiKey then .ok chatSession
  else .ok (some
    { model := MODEL_CHAT
      systemInstruction := CHAT_SYSTEM_INSTRUCTION ++ "\n\nDOCUMENT CONTEXT:\n" ++ context })

/-- The failures `sendChatMessage` can surface: the line 327 throw, or an
error rejected by the remote `sendMessage` call (propagated unwrapped). -/
inductive ChatError where
  | sessionNotReady
  | remote (status : Option Nat) (message : String)
deriving DecidableEq

def ChatError.text : ChatError → String
  | .sessionNotReady => "Chat session not initialized"
  | .remote _ m => m

/-- `sendChatMessage` (lines 326-331): throws when no handle exists, otherwise
forwards the message to the current handle and substitutes the fixed fallback
for a falsy reply. -/
def sendChatMessage (chatSession : Option ChatHandle)
    (respond : ChatHandle → String → Except JsError (Option String))
    (message : String) : Except ChatError String :=
  match chatSession with
  | none => .error .sessionNotReady
  | some h =>
    match respond h message with
    | .error e => .error (.remote e.status e.message)
    | .ok t =>
      .ok (match t with
        | none => "I couldn't generate a response."
        | some s => if s = "" then "I couldn't generate a response." else s)

/-! ### Auxiliary generators (`src/unnamed/part_000` lines 178-309) -/

/-- `AnalysisData` (`src/types.ts` lines 34-58); the three categorical fields
are kept as strings, the schema checker below constrains their values. -/
structure AnalysisData where
  plain_summary : String
  key_findings : List String
  methods : String
  data_interpretation : String
  risks : String
  limitations : String
  patient_explanation : String
  clinician_explanation : String
  cross_comparison : String
  clinical_takeaway : String
  markdown_report : String
  study_type : String
  evidence_strength : String
  evidence_clarity : String
  document_quality : String
  key_signals : List String
  processing_warnings : Option (List String)
  grounding_urls : Option (List (String × String))

/-- The context block of lines 183-191. -/
def scriptContext (d : AnalysisData) : String :=
  "\n      PLAIN SUMMARY: " ++ d.plain_summary
    ++ "\n      KEY FINDINGS: " ++ String.intercalate "\n" d.key_findings
    ++ "\n      METHODS: " ++ d.methods
    ++ "\n      DATA INTERPRETATION: " ++ d.data_interpretation
    ++ "\n      RISKS: " ++ d.risks
    ++ "\n      LIMITATIONS: " ++ d.limitations
    ++ "\n      CLINICAL TAKEAWAY: " ++ d.clinical_takeaway
    ++ "\n    "

/-- `generateSpokenScript` (lines 178-208): key check, then the narration
request; a falsy reply or a remote failure degrade to fixed fallbacks. -/
def generateSpokenScript (apiKey : Option String) (d : AnalysisData)
    (respond : String → Except JsError (Option String)) : Except String String :=
  if keyMissing apiKey then .error "API Key missing"
  else
    match respond (scriptContext d) with
    | .ok t =>
      .ok (match t with
        | none => "Here is a summary of your document."
        | some s => if s = "" then "Here is a summary of your document." else s)
    | .error _ => .ok ("Here is a summary of your document. " ++ d.plain_summary)

/-- One part of an image response candidate: an optional `inlineData`. -/
structure RespPart where
  inlineData : Option InlineData
deriving DecidableEq

def firstInline : List RespPart → Option InlineData
  | [] => none
  | p :: rest =>
    match p.inlineData with
    | some d => some d
    | none => firstInline rest

/-- `generateVisualSummary` (lines 211-239): key check, then the first part
with inline data becomes a data URI; a missing payload or a remote failure both
land in the catch at line 235. -/
def generateVisualSummary (apiKey : Option String) (summary : String)
    (respond : String → Except JsError (List RespPart)) : Except String String :=
  if keyMissing apiKey then .error "API Key missing"
  else
    match respond summary with
    | .error _ => .error "Failed to generate visual summary."
    | .ok parts =>
      match firstInline parts with
      | some d => .ok ("data:" ++ d.mimeType ++ ";base64," ++ d.data)
      | none => .error "Failed to generate visual summary."

/-- `generateAudioSummary` (lines 242-268): key check; a falsy audio payload
throws, and the catch rethrows the original error unchanged. -/
def generateAudioSummary (apiKey : Option String) (text : String)
    (respond : String → Except JsError (Option String)) : Except String String :=
  if keyMissing apiKey then .error "API Key missing"
  else
    match respond text with
    | .error e => .error e.message
    | .ok b =>
      match b with
      | none => .error "No audio generated"
      | some s =>
        if s = "" then .error "No audio generated"
        else .ok ("data:audio/wav;base64," ++ s)

/-- `transcribeAudio` (lines 271-309): key check, blob encoding (an external
read that may fail), the recognition call; every failure inside the try becomes
the fixed message, and a falsy reply text becomes the empty string. -/
def transcribeAudio (apiKey : Option String) (blobData : Except Unit String)
    (respond : String → Except JsError (Option String)) : Except String String :=
  if keyMissing apiKey then .error "API Key missing"
  else
    match blobData with
    | .error _ => .error "Failed to transcribe audio."
    | .ok b64 =>
      match respond b64 with
      | .error _ => .error "Failed to transcribe audio."
      | .ok t => .ok (match t with | none => "" | some s => s)

/-! ### Schema conformance (spec side)

Follows the spec's words (§3 and §4.4): the fixed `AnalysisRecord` content
schema of `src/types.ts` lines 34-58, as a decidable predicate on parsed JSON
values.  It is the comparison point for the claim that the normalizer validates
its output against the schema — the code itself performs no such check. -/

def isStr : Json → Bool
  | .str _ => true
  | _ => false

def isStrArr : Json → Bool
  | .arr xs => xs.all isStr
  | _ => false

def isCitePair : Json → Bool
  | .obj fs =>
    (match lookupField fs "title" with | some (.str _) => true | _ => false)
      && (match lookupField fs "url" with | some (.str _) => true | _ => false)
  | _ => false

def fieldIs (fs : List (String × Json)) (k : String) (p : Json → Bool) : Bool :=
  match lookupField fs k with
  | some v => p v
  | none => false

def optFieldIs (fs : List (String × Json)) (k : String) (p : Json → Bool) : Bool :=
  match lookupField fs k with
  | some v => p v
  | none => true

def isLevel (j : Json) : Bool :=
  match j with
  | .str s => s = "Low" || s = "Medium" || s = "High"
  | _ => false

def isQuality (j : Json) : Bool :=
  match j with
  | .str s => s = "Limited" || s = "Moderate" || s = "Strong"
  | _ => false

/-- Conformance of a parsed JSON value to the §3 `AnalysisRecord` schema. -/
def conformsToAnalysisSchema (j : Json) : Bool :=
  match j with
  | .obj fs =>
    fieldIs fs "plain_summary" isStr
      && fieldIs fs "key_findings" isStrArr
      && fieldIs fs "methods" isStr
      && fieldIs fs "data_interpretation" isStr
      && fieldIs fs "risks" isStr
      && fieldIs fs "limitations" isStr
      && fieldIs fs "patient_explanation" isStr
      && fieldIs fs "clinician_explanation" isStr
      && fieldIs fs "cross_comparison" isStr
      && fieldIs fs "clinical_takeaway" isStr
      && fieldIs fs "markdown_report" isStr
      && fieldIs fs "study_type" isStr
      && fieldIs fs "evidence_strength" isLevel
      && fieldIs fs "evidence_clarity" isLevel
      && fieldIs fs "document_quality" isQuality
      && fieldIs fs "key_signals" isStrArr
      && optFieldIs fs "processing_warnings" isStrArr
      && optFieldIs fs "grounding_urls" (fun v =>
          match v with
          | .arr xs => xs.all isCitePair
          | _ => false)
  | _ => false

/-! ### Concrete record used by the round-trip property -/

/-- A complete `AnalysisRecord` JSON text, every §3 content field present. -/
def sampleRecordJson : String :=
  "\x7b\"plain_summary\":\"s\",\"key_findings\":[\"f\"],\"methods\":\"m\",\"data_interpretation\":\"d\",\"risks\":\"r\",\"limitations\":\"l\",\"patient_explanation\":\"p\",\"clinician_explanation\":\"c\",\"cross_comparison\":\"x\",\"clinical_takeaway\":\"t\",\"markdown_report\":\"md\",\"study_type\":\"RCT\",\"evidence_strength\":\"High\",\"evidence_clarity\":\"Medium\",\"document_quality\":\"Strong\",\"key_signals\":[\"k\"]\x7d"

/-- The `Json` value `sampleRecordJson` denotes. -/
def sampleRecord : Json :=
  .obj [("plain_summary", .str "s"), ("key_findings", .arr [.str "f"]),
    ("methods", .str "m"), ("data_interpretation", .str "d"), ("risks", .str "r"),
    ("limitations", .str "l"), ("patient_explanation", .str "p"),
    ("clinician_explanation", .str "c"), ("cross_comparison", .str "x"),
    ("clinical_takeaway", .str "t"), ("markdown_report", .str "md"),
    ("study_type", .str "RCT"), ("evidence_strength", .str "High"),
    ("evidence_clarity", .str "Medium"), ("document_quality", .str "Strong"),
    ("key_signals", .arr [.str "k"])]

/-- A concrete `AnalysisData` value for witnesses. -/
def sampleAnalysisData : AnalysisData :=
  { plain_summary := "s", key_findings := ["f"], methods := "m"
    data_interpretation := "d", risks := "r", limitations := "l"
    patient_explanation := "p", clinician_explanation := "c"
    cross_comparison := "x", clinical_takeaway := "t", markdown_report := "md"
    study_type := "RCT", evidence_strength := "High", evidence_clarity := "Medium"
    document_quality := "Strong", key_signals := ["k"]
    processing_warnings := none, grounding_urls := none }

/-! ### Helper lemmas on JS property assignment -/

theorem lookupField_setField_self (fs : List (String × Json)) (k : String) (v : Json) :
    lookupField (setField fs k v) k = some v := by
  induction fs with
  | nil => simp [setField, lookupField]
  | cons p rest ih =>
    obtain ⟨k', v'⟩ := p
    by_cases h : k' = k
    · subst h
      simp [setField, lookupField]
    · simp [setField, lookupField, h, ih]

theorem lookupField_setField_of_ne (fs : List (String × Json)) (k k' : String) (v : Json)
    (h : k' ≠ k) : lookupField (setField fs k v) k' = lookupField fs k' := by
  induction fs with
  | nil => simp [setField, lookupField, h.symm]
  | cons p rest ih =>
    obtain ⟨k0, v0⟩ := p
    by_cases h1 : k0 = k
    · subst h1
      simp [setField, lookupField, h.symm]
    · simp [setField, lookupField, h1, ih]

/-! ### Claims -/

/-- C4 (confirmed): quick mode composes the request with the lighter-weight
model, no thinking budget, no search-tool augmentation and strict JSON output
enforcement; deep mode with the stronger model, the fixed 8192 thinking
budget, search augmentation and no mime-type enforcement.  The two model
constants are distinct. -/
theorem composeRequest_mode_settings (parts : List ReqPart) (prompt : String) :
    ((composeRequest .quick parts prompt).model = MODEL_FAST
      ∧ (composeRequest .quick parts prompt).config.thinkingConfig = none
      ∧ (composeRequest .quick parts prompt).config.tools = none
      ∧ (composeRequest .quick parts prompt).config.responseMimeType = some "application/json")
    ∧ ((composeRequest .deep parts prompt).model = MODEL_ANALYSIS
      ∧ (composeRequest .deep parts prompt).config.thinkingConfig = some ⟨8192⟩
      ∧ (composeRequest .deep parts prompt).config.tools = some [.googleSearch]
      ∧ (composeRequest .deep parts prompt).config.responseMimeType = none)
    ∧ MODEL_FAST ≠ MODEL_ANALYSIS :=
  ⟨⟨rfl, rfl, rfl, rfl⟩, ⟨rfl, rfl, rfl, rfl⟩, by decide⟩

/-- C5 (amended): a slice that fails to parse as JSON is fatal with the
malformed-response message, with no internal retry; no schema validation
beyond `JSON.parse` takes place. -/
theorem normalize_parse_failure_fatal (t : String) (w : List String)
    (gc : Option (List GroundingChunk))
    (hp : Json.parse (extractJsonSlice t) = none) :
    normalizeText t w gc = .error malformedMsg := by
  simp [normalizeText, hp]

/-- C5 (witness): a concrete non-JSON slice is rejected as malformed. -/
theorem normalize_parse_failure_fatal_witness :
    normalizeText "no json here" [] none = .error malformedMsg :=
  normalize_parse_failure_fatal "no json here" [] none rfl

/-- C5 (counterexample): the normalizer returns the empty object, which does
not conform to the `AnalysisRecord` schema — step 4 performs no schema
validation. -/
theorem normalize_no_schema_validation_counterexample :
    normalizeText "\x7b\x7d" [] none = .ok (.obj [])
      ∧ conformsToAnalysisSchema (.obj []) = false :=
  ⟨rfl, rfl⟩

/-- C6 (amended): text whose trimmed form has no opening or no closing brace
and does not start with a fence fails with the malformed-response message
whenever it is not itself valid JSON. -/
theorem normalize_unparseable_text_malformed (t : String) (w : List String)
    (gc : Option (List GroundingChunk))
    (hb : firstIdxOf (jsTrim t) lbrace = none ∨ lastIdxOf (jsTrim t) rbrace = none)
    (hfence : strStarts (jsTrim t) "```" = false)
    (hp : Json.parse (jsTrim t) = none) :
    normalizeText t w gc = .error malformedMsg := by
  have he : extractJsonSlice t = jsTrim t := by
    rcases hb with h | h
    · simp [extractJsonSlice, h, fenceFallback, hfence]
    · cases hfi : firstIdxOf (jsTrim t) lbrace with
      | none => simp [extractJsonSlice, hfi, fenceFallback, hfence]
      | some f => simp [extractJsonSlice, hfi, h, fenceFallback, hfence]
  rw [normalizeText, he, hp]

/-- C6 (witness): concrete brace-free, fence-free, non-JSON prose is rejected
as malformed. -/
theorem normalize_unparseable_text_malformed_witness :
    normalizeText "plain prose" [] none = .error malformedMsg :=
  normalize_unparseable_text_malformed "plain prose" [] none (Or.inl rfl) rfl rfl

/-- C6 (counterexample): `"42"` has no brace pair and no fence, yet
normalization succeeds, because `JSON.parse` accepts a bare number — the claim
that every such text fails with `MalformedResponseError` is false. -/
theorem normalize_bare_number_counterexample :
    firstIdxOf (jsTrim "42") lbrace = none
      ∧ strStarts (jsTrim "42") "```" = false
      ∧ normalizeText "42" [] none = .ok (.num 42 0) :=
  ⟨rfl, rfl, rfl⟩

set_option maxRecDepth 16000 in
/-- C7 (confirmed): the fence-wrapped and the noise-wrapped forms of the same
embedded valid record normalize to the identical `AnalysisRecord`, which
conforms to the schema. -/
theorem normalize_fence_noise_roundtrip :
    normalizeText ("```json\n" ++ sampleRecordJson ++ "\n```") [] none = .ok sampleRecord
      ∧ normalizeText ("noise" ++ sampleRecordJson ++ "noise") [] none = .ok sampleRecord
      ∧ conformsToAnalysisSchema sampleRecord = true :=
  ⟨rfl, rfl, rfl⟩

/-- C3 (amended): the classifier is total and first-match-ordered over every
(status, lower-cased message) pair, per the six-row characterization below; a
message containing both quota and overloaded wording classifies as rate
limited; an unknown failure passes the original message through verbatim when
it is non-empty (an empty message is replaced by a fixed fallback). -/
theorem classify_first_match_spec (st : Option Nat) (m : String) :
    ((classify st m).1 = FailureKind.badRequest ↔ rowBadRequest st (jsToLower m) = true)
      ∧ ((classify st m).1 = FailureKind.rateLimited ↔
          (rowBadRequest st (jsToLower m) = false ∧ rowRateLimited st (jsToLower m) = true))
      ∧ ((classify st m).1 = FailureKind.contentRejected ↔
          (rowBadRequest st (jsToLower m) = false ∧ rowRateLimited st (jsToLower m) = false
            ∧ rowContentRejected (jsToLower m) = true))
      ∧ ((classify st m).1 = FailureKind.serviceOverloaded ↔
          (rowBadRequest st (jsToLower m) = false ∧ rowRateLimited st (jsToLower m) = false
            ∧ rowContentRejected (jsToLower m) = false
            ∧ rowServiceOverloaded st (jsToLower m) = true))
      ∧ ((classify st m).1 = FailureKind.networkFailure ↔
          (rowBadRequest st (jsToLower m) = false ∧ rowRateLimited st (jsToLower m) = false
            ∧ rowContentRejected (jsToLower m) = false
            ∧ rowServiceOverloaded st (jsToLower m) = false
            ∧ rowNetworkFailure (jsToLower m) = true))
      ∧ ((classify st m).1 = FailureKind.unknown ↔
          (rowBadRequest st (jsToLower m) = false ∧ rowRateLimited st (jsToLower m) = false
            ∧ rowContentRejected (jsToLower m) = false
            ∧ rowServiceOverloaded st (jsToLower m) = false
            ∧ rowNetworkFailure (jsToLower m) = false))
      ∧ (m ≠ "" → (classify st m).1 = FailureKind.unknown → (classify st m).2 = m)
      ∧ (classify none "quota exceeded; backend overloaded").1 = FailureKind.rateLimited := by
  refine ⟨?_, ?_, ?_, ?_, ?_, ?_, ?_, rfl⟩ <;>
    · simp only [classify]
      split_ifs with h1 h2 h3 h4 h5 <;>
        · try simp_all [Bool.not_eq_true]
          try tauto

/-- C3 (witness): a trigger-free non-empty message is classified unknown with
the message passed through verbatim. -/
theorem classify_first_match_spec_witness :
    (classify none "boom").1 = FailureKind.unknown ∧ (classify none "boom").2 = "boom" := by
  have h := classify_first_match_spec none "boom"
  have hu : (classify none "boom").1 = FailureKind.unknown :=
    (h.2.2.2.2.2.1).mpr (by decide)
  exact ⟨hu, h.2.2.2.2.2.2.1 (by decide) hu⟩

/-- C3 (counterexample): the empty message lands in the unknown row but is not
passed through verbatim — a fixed fallback replaces it. -/
theorem classify_empty_message_counterexample :
    (classify none "").1 = FailureKind.unknown
      ∧ (classify none "").2 = "An unexpected error occurred during analysis."
      ∧ (classify none "").2 ≠ "" :=
  ⟨rfl, rfl, by decide⟩

/-- C9 (confirmed): `sendChatMessage` fails with the session-not-ready error
exactly when no handle exists; otherwise it forwards the message to the
current handle and returns the reply, substituting the fixed fallback for an
empty or missing reply. -/
theorem sendChatMessage_spec (st : Option ChatHandle)
    (respond : ChatHandle → String → Except JsError (Option String)) (m : String) :
    (sendChatMessage st respond m = .error .sessionNotReady ↔ st = none)
      ∧ (∀ h, st = some h →
          sendChatMessage st respond m =
            match respond h m with
            | .error e => .error (.remote e.status e.message)
            | .ok none => .ok "I couldn't generate a response."
            | .ok (some s) => .ok (if s = "" then "I couldn't generate a response." else s)) := by
  constructor
  · cases st with
    | none => simp [sendChatMessage]
    | some h =>
      simp only [sendChatMessage]
      cases hr : respond h m with
      | error e => simp
      | ok t => cases t <;> simp
  · intro h hh
    subst hh
    simp only [sendChatMessage]
    cases hr : respond h m with
    | error e => rfl
    | ok t => cases t <;> rfl

/-- C9 (witness): with an installed handle a non-empty remote reply is
returned as is. -/
theorem sendChatMessage_spec_witness :
    sendChatMessage (some ⟨"chat-model", "sys"⟩) (fun _ _ => .ok (some "reply")) "hi"
      = .ok "reply" :=
  (sendChatMessage_spec (some ⟨"chat-model", "sys"⟩) (fun _ _ => .ok (some "reply")) "hi").2
    ⟨"chat-model", "sys"⟩ rfl

/-- C8 (amended): with the credential absent, the five request-performing
entry points fail immediately — independently of the remote behaviour — with
their missing-credential messages; session initialization is a silent no-op
that keeps the previous handle and raises nothing; the chat-turn entry point
performs no credential check and fails with the session-not-ready error exactly
when no handle exists. -/
theorem credential_checks_spec (k : Option String) (hk : keyMissing k = true) :
    (∀ files ui ur fa md respond,
        analyzeMedicalDocuments k files ui ur fa md respond =
          { request := none
            result := .error "API Key is missing. Please check your environment configuration." })
      ∧ (∀ d respond, generateSpokenScript k d respond = .error "API Key missing")
      ∧ (∀ s respond, generateVisualSummary k s respond = .error "API Key missing")
      ∧ (∀ t respond, generateAudioSummary k t respond = .error "API Key missing")
      ∧ (∀ b respond, transcribeAudio k b respond = .error "API Key missing")
      ∧ (∀ ctx st, initChatSession k ctx st = .ok st)
      ∧ (∀ st respond m, sendChatMessage st respond m = .error .sessionNotReady ↔ st = none) := by
  refine ⟨?_, ?_, ?_, ?_, ?_, ?_, ?_⟩
  · intro files ui ur fa md respond
    simp [analyzeMedicalDocuments, hk]
  · intro d respond
    simp [generateSpokenScript, hk]
  · intro s respond
    simp [generateVisualSummary, hk]
  · intro t respond
    simp [generateAudioSummary, hk]
  · intro b respond
    simp [transcribeAudio, hk]
  · intro ctx st
    simp [initChatSession, hk]
  · intro st respond m
    cases st with
    | none => simp [sendChatMessage]
    | some h =>
      simp only [sendChatMessage]
      cases hr : respond h m with
      | error e => simp
      | ok t => cases t <;> simp

/-- C8 (witness): with the credential unset, script synthesis fails with its
missing-credential message and session initialization returns without
installing a handle. -/
theorem credential_checks_spec_witness :
    generateSpokenScript none sampleAnalysisData (fun _ => .ok none) = .error "API Key missing"
      ∧ initChatSession none "ctx" none = .ok none :=
  ⟨(credential_checks_spec none rfl).2.1 sampleAnalysisData (fun _ => .ok none),
   (credential_checks_spec none rfl).2.2.2.2.2.1 "ctx" none⟩

/-- C8 (counterexample): with the credential absent, session initialization
returns successfully (keeping the old handle) instead of failing with a
missing-credential error, so not every entry point fails. -/
theorem initChatSession_missing_key_counterexample :
    initChatSession none "some context" (some ⟨"old-model", "old-sys"⟩)
      = .ok (some ⟨"old-model", "old-sys"⟩) := rfl

/-- C2 (amended): when every file fails to encode (including an empty file
set) the analysis aborts without issuing any remote request, throwing the
no-usable-input message as rewritten by the outer classifier; with no recorded
failures the message reports no valid inputs verbatim.  (The first failed
file's name and reason appear in the thrown message, but the classifier may
replace the message when the file name contains a trigger substring.) -/
theorem analyze_all_failed_aborts (k : Option String) (files : List FileInput)
    (ui : String) (ur : UserRole) (fa : FocusArea) (md : AnalysisMode)
    (respond : GenRequest → Except JsError ResponseEnvelope)
    (hk : keyMissing k = false) (hs : successfulPartsOf files = []) :
    (analyzeMedicalDocuments k files ui ur fa md respond).request = none
      ∧ (analyzeMedicalDocuments k files ui ur fa md respond).result =
          .error (classify none (noUsableMsg (failedFilesOf files))).2
      ∧ (failedFilesOf files = [] →
          (analyzeMedicalDocuments k files ui ur fa md respond).result =
            .error "No valid files to analyze.") := by
  have h1 : (analyzeMedicalDocuments k files ui ur fa md respond).request = none := by
    simp [analyzeMedicalDocuments, hk, hs]
  have h2 : (analyzeMedicalDocuments k files ui ur fa md respond).result =
      .error (classify none (noUsableMsg (failedFilesOf files))).2 := by
    simp [analyzeMedicalDocuments, hk, hs]
  refine ⟨h1, h2, ?_⟩
  intro hf
  rw [h2, hf]
  exact rfl

/-- C2 (witness): a single failing file with a trigger-free name aborts the
analysis with the message naming the file and its reason, and no request is
issued. -/
theorem analyze_all_failed_aborts_witness :
    (analyzeMedicalDocuments (some "key") [⟨"a.pdf", .error .readFailed⟩] ""
        .student .overall .quick (fun _ => .ok ⟨none, none⟩)).request = none
      ∧ (analyzeMedicalDocuments (some "key") [⟨"a.pdf", .error .readFailed⟩] ""
          .student .overall .quick (fun _ => .ok ⟨none, none⟩)).result
        = .error "Failed to process all files. a.pdf: Failed to read file" := by
  have h := analyze_all_failed_aborts (some "key") [⟨"a.pdf", .error .readFailed⟩] ""
    .student .overall .quick (fun _ => .ok ⟨none, none⟩) rfl rfl
  exact ⟨h.1, h.2.1⟩

/-- C2 (counterexample): when the only (failed) file is named `network.pdf`,
the thrown all-failed message is rewritten by the classifier into the generic
network-error message, which names neither the file nor its reason — the
claimed message format does not hold for every file set. -/
theorem analyze_all_failed_message_counterexample :
    (analyzeMedicalDocuments (some "key") [⟨"network.pdf", .error .readFailed⟩] ""
        .student .overall .quick (fun _ => .ok ⟨none, none⟩)).result
      = .error "Network error. Please check your internet connection."
      ∧ strIncludes "Network error. Please check your internet connection." "network.pdf" = false
      ∧ strIncludes "Network error. Please check your internet connection." "Failed to read file" = false :=
  ⟨rfl, by decide, by decide⟩

/-- C10 (amended): with zero failed files the returned record is exactly the
parsed response value — `processing_warnings` is not written, so it is absent
unless the response itself supplied it — and when the parse fails the call
errors with the classified malformed-response message, so warnings are only
ever attached after a successful parse. -/
theorem analyze_warnings_presence (k : Option String) (files : List FileInput)
    (ui : String) (ur : UserRole) (fa : FocusArea) (md : AnalysisMode)
    (respond : GenRequest → Except JsError ResponseEnvelope)
    (env : ResponseEnvelope) (t : String)
    (hk : keyMissing k = false)
    (hs : (successfulPartsOf files).isEmpty = false)
    (hr : respond (composeRequest md (successfulPartsOf files) (buildPrompt ui ur fa md)) = .ok env)
    (ht : env.text = some t) (hne : t ≠ "")
    (hf : failedFilesOf files = [])
    (hg : env.groundingChunks = none) :
    (analyzeMedicalDocuments k files ui ur fa md respond).result =
      match Json.parse (extractJsonSlice t) with
      | some j => .ok j
      | none => .error (classify none malformedMsg).2 := by
  cases hp : Json.parse (extractJsonSlice t) with
  | none =>
    simp [analyzeMedicalDocuments, hk, hs, hr, ht, hne, hf, hg, normalizeText, hp]
  | some j =>
    simp [analyzeMedicalDocuments, hk, hs, hr, ht, hne, hf, hg, normalizeText, hp]

/-- C10 (witness): a clean single-file run with an empty-object response
returns that object untouched — no `processing_warnings` field appears. -/
theorem analyze_warnings_presence_witness :
    (analyzeMedicalDocuments (some "key") [⟨"solo.pdf", .ok ⟨"AA", "application/pdf"⟩⟩] ""
        .clinician .overall .quick (fun _ => .ok ⟨some "\x7b\x7d", none⟩)).result
      = .ok (.obj []) := by
  have h := analyze_warnings_presence (some "key") [⟨"solo.pdf", .ok ⟨"AA", "application/pdf"⟩⟩] ""
    .clinician .overall .quick (fun _ => .ok ⟨some "\x7b\x7d", none⟩)
    ⟨some "\x7b\x7d", none⟩ "\x7b\x7d" rfl rfl rfl rfl (by decide) rfl rfl
  exact h

/-- C10 (counterexample): with zero failed files, a response that itself
contains a `processing_warnings` key (here an empty list) yields a record with
the field present — presence is not equivalent to a file having failed, and an
empty warnings list can be observed. -/
theorem analyze_warnings_response_injected_counterexample :
    failedFilesOf [⟨"fine.png", .ok ⟨"PP", "image/png"⟩⟩] = []
      ∧ (analyzeMedicalDocuments (some "key") [⟨"fine.png", .ok ⟨"PP", "image/png"⟩⟩] ""
          .student .resultsGraphs .deep
          (fun _ => .ok ⟨some "\x7b\"processing_warnings\":[]\x7d", none⟩)).result
        = .ok (.obj [("processing_warnings", .arr [])]) :=
  ⟨rfl, rfl⟩

/-- C1 (amended): whenever at least one file encodes successfully, at least
one file fails, and the response parses as an object, the call succeeds and
the returned record's `processing_warnings` is overwritten to exactly one
warning per failed file, in original input order, each of the exact
`Unable to include ... in analysis: ...` format, so its length equals the
number of failed files. -/
theorem analyze_warnings_exact (k : Option String) (files : List FileInput)
    (ui : String) (ur : UserRole) (fa : FocusArea) (md : AnalysisMode)
    (respond : GenRequest → Except JsError ResponseEnvelope)
    (env : ResponseEnvelope) (t : String) (fs : List (String × Json))
    (hk : keyMissing k = false)
    (hs : (successfulPartsOf files).isEmpty = false)
    (hr : respond (composeRequest md (successfulPartsOf files) (buildPrompt ui ur fa md)) = .ok env)
    (ht : env.text = some t) (hne : t ≠ "")
    (hp : Json.parse (extractJsonSlice t) = some (.obj fs))
    (hf : failedFilesOf files ≠ []) :
    ∃ j, (analyzeMedicalDocuments k files ui ur fa md respond).result = .ok j
      ∧ j.getField "processing_warnings"
          = some (.arr (((failedFilesOf files).map warningMsg).map Json.str))
      ∧ (((failedFilesOf files).map warningMsg).map Json.str).length
          = (failedFilesOf files).length := by
  have hw : ((failedFilesOf files).map warningMsg).isEmpty = false := by
    cases hff : failedFilesOf files with
    | nil => exact absurd hff hf
    | cons a l => simp
  cases hg : env.groundingChunks with
  | none =>
    refine ⟨.obj (setField fs "processing_warnings"
        (.arr (((failedFilesOf files).map warningMsg).map Json.str))), ?_, ?_, by simp⟩
    · simp [analyzeMedicalDocuments, hk, hs, hr, ht, hne, hg, normalizeText, hp, hw, Json.setProp]
    · simp [Json.getField, lookupField_setField_self]
  | some chunks =>
    refine ⟨.obj (setField (setField fs "processing_warnings"
        (.arr (((failedFilesOf files).map warningMsg).map Json.str)))
        "grounding_urls" (groundingJson chunks)), ?_, ?_, by simp⟩
    · simp [analyzeMedicalDocuments, hk, hs, hr, ht, hne, hg, normalizeText, hp, hw, Json.setProp]
    · show lookupField _ "processing_warnings" = _
      rw [lookupField_setField_of_ne _ _ _ _ (by decide)]
      exact lookupField_setField_self fs "processing_warnings" _

/-- C1 (witness): one good and one failing file with an empty-object response
produce a record whose warnings list is exactly the one formatted entry for
the failed file. -/
theorem analyze_warnings_exact_witness :
    ∃ j, (analyzeMedicalDocuments (some "key")
        [⟨"a.pdf", .ok ⟨"AA", "application/pdf"⟩⟩, ⟨"b.pdf", .error .readFailed⟩] ""
        .student .overall .quick (fun _ => .ok ⟨some "\x7b\x7d", none⟩)).result = .ok j
      ∧ j.getField "processing_warnings"
          = some (.arr [.str "Unable to include b.pdf in analysis: Failed to read file"])
      ∧ ([Json.str "Unable to include b.pdf in analysis: Failed to read file"]).length = 1 := by
  have h := analyze_warnings_exact (some "key")
    [⟨"a.pdf", .ok ⟨"AA", "application/pdf"⟩⟩, ⟨"b.pdf", .error .readFailed⟩] ""
    .student .overall .quick (fun _ => .ok ⟨some "\x7b\x7d", none⟩)
    ⟨some "\x7b\x7d", none⟩ "\x7b\x7d" [] rfl rfl rfl rfl (by decide) rfl (by decide)
  exact h

/-- C1 (counterexample): with zero failed files a response carrying its own
`processing_warnings` entry is returned as is, so the warnings length (1) does
not equal the number of failed files (0) — the claim fails on file sets with
no failures. -/
theorem analyze_warning_length_counterexample :
    (failedFilesOf [⟨"good.pdf", .ok ⟨"QQ", "application/pdf"⟩⟩]).length = 0
      ∧ (analyzeMedicalDocuments (some "key") [⟨"good.pdf", .ok ⟨"QQ", "application/pdf"⟩⟩] ""
          .clinician .overall .quick
          (fun _ => .ok ⟨some "\x7b\"processing_warnings\":[\"spurious\"]\x7d", none⟩)).result
        = .ok (.obj [("processing_warnings", .arr [.str "spurious"])]) :=
  ⟨rfl, rfl⟩
